import Mathlib

/-!
Verification of the web.dev service worker (`src/lib/sw.js`).

The development shallowly embeds the worker's core logic: the template
cache lifecycle (`updateTemplate`, `templateForPartial`), the offline
fallback, the "normal" page route handler (redirect normalisation,
partial fetch, hydration), and the activate-time architecture-revision
state machine.  Network and cache interactions are passed in explicitly:
a network fetch that may throw becomes an `Except Unit` argument, the
core cache becomes an explicit `CoreCache` value threaded through, and
JavaScript's `undefined`-able fields become `Option` values with the
JS truthiness / `===` / `>` semantics spelled out (`jsOrStr`, `jsShow`,
`jsGtB`).  JS `String.prototype.replace` with a string pattern replaces
only the first occurrence and interprets the replacement patterns `$$`,
`$&` and the backquote/quote forms inside the replacement string;
`replaceFirstL` together with `expandRepl` models that on character
lists.
-/

/-- Whether `pat` is a leading segment of `s`
(models `String.prototype.startsWith` on exploded characters). -/
def listLeads : List Char → List Char → Bool
  | [], _ => true
  | _ :: _, [] => false
  | a :: as, b :: bs => a = b && listLeads as bs

/-- Find the first occurrence of `pat` in `s`; return the part before it
and the part after it (the JS `indexOf` search underlying `replace`). -/
def splitOnceL (pat : List Char) : List Char → Option (List Char × List Char)
  | [] => if listLeads pat [] then some ([], []) else none
  | ch :: rest =>
    if listLeads pat (ch :: rest) then some ([], (ch :: rest).drop pat.length)
    else (splitOnceL pat rest).map (fun q => (ch :: q.1, q.2))

/-- The backquote character, written by code point to keep it out of
the source text. -/
def backquoteCh : Char := Char.ofNat 96

/-- The single-quote character, written by code point to keep it out of
the source text. -/
def squoteCh : Char := Char.ofNat 39

/-- JS `GetSubstitution` for a string-pattern `replace`: the
replacement string is scanned for the dollar patterns — a doubled
dollar yields a literal dollar, dollar-ampersand re-inserts the matched
substring, dollar-backquote the part of the subject before the match,
dollar-quote the part after it; any other dollar (including a trailing
one) is copied literally. -/
def expandRepl (matched before after : List Char) : List Char → List Char
  | [] => []
  | c :: rest =>
    if c = '$' then
      match rest with
      | [] => ['$']
      | d :: rest' =>
        if d = '$' then '$' :: expandRepl matched before after rest'
        else if d = '&' then matched ++ expandRepl matched before after rest'
        else if d = backquoteCh then before ++ expandRepl matched before after rest'
        else if d = squoteCh then after ++ expandRepl matched before after rest'
        else '$' :: d :: expandRepl matched before after rest'
    else c :: expandRepl matched before after rest

/-- JS `s.replace(pat, rep)` with a string pattern: replace only the
first occurrence of `pat` in `s` (or leave `s` unchanged), expanding
the dollar replacement patterns of `rep` against that match. -/
def replaceFirstL (pat rep s : List Char) : List Char :=
  match splitOnceL pat s with
  | none => s
  | some q => q.1 ++ expandRepl pat q.1 q.2 rep ++ q.2

/-- Whether `pat` occurs somewhere in `s` as a contiguous segment. -/
def occursIn (pat s : List Char) : Bool := (splitOnceL pat s).isSome

/-- JS `s.endsWith(suffix)`. -/
def jsEndsWith (s suffix : String) : Bool := listLeads suffix.data.reverse s.data.reverse

/-- JS `x || d` for a possibly-`undefined` string `x`: `undefined` and
the empty string are falsy. -/
def jsOrStr : Option String → String → String
  | none, d => d
  | some s, d => if s = "" then d else s

/-- JS template-literal interpolation of a possibly-`undefined` string:
`undefined` renders as the text "undefined". -/
def jsShow : Option String → String
  | none => "undefined"
  | some s => s

/-- JS `b > x` where `b` is a number and `x` may be `undefined`
(comparison with `undefined` is `NaN`-like and yields false). -/
def jsGtB (b : Int) : Option Int → Bool
  | none => false
  | some v => decide (v < b)

/-- A page's JSON content fragment as consumed by the worker
(`partial` in the source); optional fields may be absent. -/
structure Partial where
  raw : String
  title : Option String
  rss : Option String
  offline : Bool
  resourcesVersion : Option String
  builtAt : Option Int
deriving DecidableEq, Repr

/-- The JSON object served by the `/template-json` endpoint (`raw` in
`updateTemplate`).  `manifest := none` models a deleted field. -/
structure RawBundle where
  template : String
  manifest : Option (List String)
  resourcesVersion : String
  builtAt : Int
deriving DecidableEq, Repr

/-- The `webdev-core` cache's entry for the template URL. -/
structure CoreCache where
  templateEntry : Option RawBundle
deriving DecidableEq, Repr

/-- A fetched/cached response for a page fragment: its HTTP status and
its parsed JSON body. -/
structure PResponse where
  status : Nat
  body : Partial
deriving DecidableEq, Repr

/-- The JS `Response.ok` accessor: status in the range 200..299. -/
def responseOk (status : Nat) : Bool := decide (200 ≤ status ∧ status ≤ 299)

/-- Model of `updateTemplate()`: fetch the template endpoint and parse its JSON
body (`net`; a throw from either step is `Except.error`), delete the
`manifest` field, write the remainder to the core cache, then precache
the manifest assets (`pre`; `cache.addAll` may fail after the template
write was already issued).  Returns the new cache state and the
template string, or the propagated error. -/
def updateTemplate (net : Except Unit RawBundle) (pre : Except Unit Unit)
    (cache : CoreCache) : CoreCache × Except Unit String :=
  match net with
  | Except.error e => (cache, Except.error e)
  | Except.ok raw =>
    let cache' : CoreCache := ⟨some {raw with manifest := none}⟩
    match pre with
    | Except.error e => (cache', Except.error e)
    | Except.ok _ => (cache', Except.ok raw.template)

/-- Outcome of resolving a template for a fragment: served straight
from the cache, freshly refreshed, served from the stale fallback after
a failed refresh, or a propagated failure. -/
inductive TemplateOutcome where
  | fromCache (t : String)
  | fromRefresh (t : String)
  | fromFallback (t : String)
  | failed
deriving DecidableEq, Repr

/-- Did the resolution serve the cached template without refreshing? -/
def TemplateOutcome.usedCache : TemplateOutcome → Bool
  | .fromCache _ => true
  | _ => false

/-- The refresh path of `templateForPartial`: run `updateTemplate`; on
success serve the fresh template, on a throw serve `fallbackTemplate`
when it is truthy — JS `if (fallbackTemplate)` treats both an unset
variable and the empty string as falsy — else re-throw, propagating the
failure. -/
def refreshAndServe (fallbackTemplate : Option String) (net : Except Unit RawBundle)
    (pre : Except Unit Unit) (cache : CoreCache) : CoreCache × TemplateOutcome :=
  match updateTemplate net pre cache with
  | (cache', Except.ok t) => (cache', TemplateOutcome.fromRefresh t)
  | (cache', Except.error _) =>
    match fallbackTemplate with
    | some t =>
      if t = "" then (cache', TemplateOutcome.failed)
      else (cache', TemplateOutcome.fromFallback t)
    | none => (cache', TemplateOutcome.failed)

/-- Model of the template resolution for a fragment: read the cached template bundle; if
present and its `resourcesVersion` is non-empty, serve it directly when
it matches the fragment's `resourcesVersion` (JS `===`, so an absent
fragment version never matches) or when the cached `builtAt` is
strictly newer (JS `>`, false against an absent `builtAt`); otherwise
refresh, falling back to the cached template on a failed refresh. -/
def templateForPartial (cache : CoreCache) (p : Partial)
    (net : Except Unit RawBundle) (pre : Except Unit Unit) : CoreCache × TemplateOutcome :=
  match cache.templateEntry with
  | none => refreshAndServe none net pre cache
  | some c =>
    if c.resourcesVersion = "" then
      refreshAndServe (some c.template) net pre cache
    else if p.resourcesVersion = some c.resourcesVersion ∨ jsGtB c.builtAt p.builtAt = true then
      (cache, TemplateOutcome.fromCache c.template)
    else
      refreshAndServe (some c.template) net pre cache

/-- The condition under which `templateForPartial` does not serve the
cached template directly and instead attempts a refresh. -/
def decidesToRefresh (cache : CoreCache) (p : Partial) : Bool :=
  match cache.templateEntry with
  | none => true
  | some c =>
    if c.resourcesVersion = "" then true
    else if p.resourcesVersion = some c.resourcesVersion ∨ jsGtB c.builtAt p.builtAt = true then
      false
    else true

/-- The head-injection marker literal `<!-- %_HEAD_REPLACE_% -->`. -/
def headMarkerL : List Char := "<!-- %_HEAD_REPLACE_% -->".data

/-- The body-content marker literal `%_CONTENT_REPLACE_%`. -/
def contentMarkerL : List Char := "%_CONTENT_REPLACE_%".data

/-- The `data-title` of the rendered feed link: JS
`partial.rss !== '/feed.xml' ? `${partial.title} on web.dev` : 'web.dev feed'`
(note an absent `rss` is `!==` the default path, and an absent `title`
interpolates as "undefined"). -/
def rssTitleFor (p : Partial) : String :=
  if p.rss ≠ some "/feed.xml" then jsShow p.title ++ " on web.dev" else "web.dev feed"

/-- The string substituted for the head marker: `${meta}\n${title}\n${rss}`. -/
def headFor (p : Partial) : String :=
  (if p.offline then "<meta name=\"offline\" value=\"true\" />" else "") ++ "\n" ++
    ("<title>" ++ jsOrStr p.title "web.dev" ++ "</title>") ++ "\n" ++
    ("<link rel=\"alternate\" href=\"" ++ jsOrStr p.rss "/feed.xml" ++
      "\" type=\"application/atom+xml\" data-title=\"" ++ rssTitleFor p ++ "\" />")

/-- The two marker substitutions of the route handler, on exploded
characters: first the head marker is replaced by the head string, then
the content marker by the fragment's `raw` markup. -/
def hydrateL (template headStr raw : List Char) : List Char :=
  replaceFirstL contentMarkerL raw (replaceFirstL headMarkerL headStr template)

/-- The hydrated page output for a template string and a fragment. -/
def hydrateOutput (template : String) (p : Partial) : String :=
  ⟨hydrateL template.data (headFor p).data p.raw.data⟩

/-- The in-memory substitute fragment synthesized when the precached
offline entry is missing (development). -/
def devOfflineSub : Partial :=
  { raw := "<h1>Dev offline</h1>", title := some "", rss := none,
    offline := true, resourcesVersion := none, builtAt := none }

/-- Model of the offline fallback: the precached `/offline/index.json`
response when present, else the synthetic dev substitute with the
default 200 status of `new Response`. -/
def offlineResponseFor (cachedOffline : Option PResponse) : PResponse :=
  match cachedOffline with
  | some r => r
  | none => ⟨200, devOfflineSub⟩

/-- What the route handler produced: an immediate redirect, a hydrated
HTML response, or a raised error (which reaches the catch handler). -/
inductive NormalOutcome where
  | redirect (location : String) (status : Nat)
  | html (body : String) (status : Nat)
  | thrown
deriving DecidableEq, Repr

/-- Suspension points the handler actually reached: a fragment fetch
through the content strategy, or the offline-fallback cache lookup. -/
inductive Effect where
  | fetchJson (path : String)
  | offlineLookup
deriving DecidableEq, Repr

/-- The handler's environment: the content strategy's result per
requested path (a throw is `Except.error`), the precached offline
entry, the core cache, and the template refresh's network/precache
results. -/
structure HandlerEnv where
  strategyResult : String → Except Unit PResponse
  cachedOffline : Option PResponse
  cache : CoreCache
  net : Except Unit RawBundle
  pre : Except Unit Unit

/-- JS `pathname.replace(/\.html$/, '.json')`. -/
def replaceHtmlSuffix (p : String) : String :=
  if jsEndsWith p ".html" then ⟨p.data.take (p.data.length - 5) ++ ".json".data⟩ else p

/-- The common tail of the route handler once a pathname ends in
`.html`: fetch the fragment (substituting the offline fallback on a
throw), raise on a non-ok status, resolve the template, substitute the
two markers, and respond with the fragment's own status. -/
def handlePage (pathname : String) (env : HandlerEnv) : List Effect × NormalOutcome :=
  let jsonPath := replaceHtmlSuffix pathname
  let fetched : List Effect × PResponse :=
    match env.strategyResult jsonPath with
    | Except.ok r => ([Effect.fetchJson jsonPath], r)
    | Except.error _ =>
      ([Effect.fetchJson jsonPath, Effect.offlineLookup], offlineResponseFor env.cachedOffline)
  if responseOk fetched.2.status then
    match ( templateForPartial env.cache fetched.2.body env.net env.pre).2 with
    | TemplateOutcome.fromCache t =>
      (fetched.1, NormalOutcome.html (hydrateOutput t fetched.2.body) fetched.2.status)
    | TemplateOutcome.fromRefresh t =>
      (fetched.1, NormalOutcome.html (hydrateOutput t fetched.2.body) fetched.2.status)
    | TemplateOutcome.fromFallback t =>
      (fetched.1, NormalOutcome.html (hydrateOutput t fetched.2.body) fetched.2.status)
    | TemplateOutcome.failed => (fetched.1, NormalOutcome.thrown)
  else (fetched.1, NormalOutcome.thrown)

/-- The `normalMatch` route handler: ensure the pathname ends in
`.html` — already-`.html` paths pass through, `/`-terminated paths get
`index.html` appended, and anything else is answered at once with a 301
redirect to the slash-terminated path, the query string preserved. -/
def normalHandler (pathname search : String) (env : HandlerEnv) : List Effect × NormalOutcome :=
  if jsEndsWith pathname ".html" then handlePage pathname env
  else if jsEndsWith pathname "/" then handlePage (pathname ++ "index.html") env
  else ([], NormalOutcome.redirect (pathname ++ "/" ++ search) 301)

/-- The pathname `handlePage` ends up hydrating for a page-shaped
request (after the `index.html` completion). -/
def effectivePath (pathname : String) : String :=
  if jsEndsWith pathname ".html" then pathname else pathname ++ "index.html"

/-- The fragment response the handler ends up inspecting: the content
strategy's answer, or the offline fallback if the strategy threw. -/
def effectiveResponse (env : HandlerEnv) (pathname : String) : PResponse :=
  match env.strategyResult (replaceHtmlSuffix (effectivePath pathname)) with
  | Except.ok r => r
  | Except.error _ => offlineResponseFor env.cachedOffline

/-- A character of the route regex's class (word characters, dash, slash). -/
def isWordCh (ch : Char) : Bool := ch.isAlpha || ch.isDigit || ch = '_' || ch = '-' || ch = '/'

/-- The `normalMatch` route regex: a leading slash, then word
characters, dashes and slashes, and an optional `.html` suffix. -/
def isNormalPath (p : String) : Bool :=
  match p.data with
  | [] => false
  | ch :: rest =>
    ch = '/' &&
      (rest.all isWordCh ||
        (jsEndsWith p ".html" && (rest.take (rest.length - 5)).all isWordCh))

/-- The running worker's architecture tag. -/
def serviceWorkerArchitecture : String := "v3"

/-- Observable outcome of the activate-time revision machine: the tag
left in the store, whether clients were claimed, and whether open
windows were told to reload. -/
structure ActivateResult where
  persisted : Option String
  claimed : Bool
  reloadedWindows : Bool
deriving DecidableEq, Repr

/-- The install handler's recording of whether a previous worker was
active (`self.registration.active` non-null). -/
def replacingPreviousServiceWorker (previousActive : Bool) : Bool := previousActive

/-- The activate handler's revision machine: an unchanged persisted tag
does nothing; otherwise the new tag is persisted, clients are claimed,
and open windows reload only when a previous worker had been active. -/
def activateHandler (previousArchitecture : Option String) (replacingPrevious : Bool) :
    ActivateResult :=
  if previousArchitecture = some serviceWorkerArchitecture then
    ⟨previousArchitecture, false, false⟩
  else
    ⟨some serviceWorkerArchitecture, true, replacingPrevious⟩

/-- A minimal page fragment with every optional field absent. -/
def bareFrag : Partial :=
  { raw := "", title := none, rss := none, offline := false,
    resourcesVersion := none, builtAt := none }

/-- A fragment with a title but no feed URL. -/
def hiFrag : Partial :=
  { raw := "", title := some "Hi", rss := none, offline := false,
    resourcesVersion := none, builtAt := none }

/-- A fragment naming a custom feed URL. -/
def customRssFrag : Partial :=
  { raw := "", title := some "Hi", rss := some "/custom.xml", offline := false,
    resourcesVersion := none, builtAt := none }

/-- A sample template-endpoint bundle with a manifest. -/
def sampleBundle : RawBundle :=
  { template := "T", manifest := some ["a.css"], resourcesVersion := "r", builtAt := 1 }

lemma jsGtB_eq_true_iff (b : Int) (ob : Option Int) :
    jsGtB b ob = true ↔ ∃ v, ob = some v ∧ v < b := by
  cases ob <;> simp [jsGtB]

lemma refreshAndServe_usedCache (fb : Option String) (net : Except Unit RawBundle)
    (pre : Except Unit Unit) (cache : CoreCache) :
    ( refreshAndServe fb net pre cache).2.usedCache = false := by
  unfold refreshAndServe
  cases hu : updateTemplate net pre cache with
  | mk c' r =>
    cases r with
    | ok t => simp [TemplateOutcome.usedCache]
    | error e =>
      cases fb with
      | none => simp [TemplateOutcome.usedCache]
      | some t => by_cases ht : t = "" <;> simp [ht, TemplateOutcome.usedCache]

lemma refreshAndServe_of_error (fb : Option String) (net : Except Unit RawBundle)
    (pre : Except Unit Unit) (cache : CoreCache)
    (h : ( updateTemplate net pre cache).2 = Except.error ()) :
    ( refreshAndServe fb net pre cache).2 =
      (match fb with
       | some t => if t = "" then TemplateOutcome.failed else TemplateOutcome.fromFallback t
       | none => TemplateOutcome.failed) := by
  unfold refreshAndServe
  cases hu : updateTemplate net pre cache with
  | mk c' r =>
    rw [hu] at h
    simp only at h
    subst h
    cases fb with
    | none => simp
    | some t => by_cases ht : t = "" <;> simp [ht]

lemma refreshAndServe_some (t0 : String) (net : Except Unit RawBundle)
    (pre : Except Unit Unit) (cache : CoreCache) :
    ( refreshAndServe (some t0) net pre cache).2 =
      (match ( updateTemplate net pre cache).2 with
       | Except.ok t => TemplateOutcome.fromRefresh t
       | Except.error _ =>
         if t0 = "" then TemplateOutcome.failed else TemplateOutcome.fromFallback t0) := by
  unfold refreshAndServe
  cases hu : updateTemplate net pre cache with
  | mk c' r =>
    cases r with
    | ok t => simp
    | error e => by_cases ht : t0 = "" <;> simp [ht]

/-- C2: on activation, an unchanged persisted architecture tag triggers
neither a client claim nor a window reload; a changed (or absent) tag is
persisted and clients are claimed; and open windows are reloaded exactly
when the tag changed and a previous worker was active at install time —
in particular, only when a previous worker was active. -/
theorem activate_architecture_machine (prev : Option String) (rp : Bool) :
    (prev = some serviceWorkerArchitecture → activateHandler prev rp = ⟨prev, false, false⟩) ∧
    (prev ≠ some serviceWorkerArchitecture →
      (activateHandler prev rp).persisted = some serviceWorkerArchitecture ∧
      (activateHandler prev rp).claimed = true) ∧
    ((activateHandler prev rp).reloadedWindows = true ↔
      (prev ≠ some serviceWorkerArchitecture ∧ rp = true)) := by
  by_cases h : prev = some serviceWorkerArchitecture <;> simp [activateHandler, h]

/-- C2 witness: activating over a persisted "v2" tag persists the new
tag and claims clients. -/
theorem activate_architecture_machine_witness :
    (activateHandler (some "v2") true).persisted = some serviceWorkerArchitecture ∧
    (activateHandler (some "v2") true).claimed = true :=
  (activate_architecture_machine (some "v2") true).2.1 (by decide)

/-- C3: a page-shaped path ending neither in `/` nor in `.html` is
answered, for every environment and with an empty effect trace (so
before any fetch or cache access), by a 301 redirect to the same path
with a trailing slash, the query string preserved. -/
theorem unslashed_page_redirects (pathname search : String) (env : HandlerEnv)
    (hshape : isNormalPath pathname = true)
    (h1 : jsEndsWith pathname ".html" = false)
    (h2 : jsEndsWith pathname "/" = false) :
    normalHandler pathname search env =
      ([], NormalOutcome.redirect (pathname ++ "/" ++ search) 301) := by
  simp [normalHandler, h1, h2]

/-- C3 witness: requesting `/foo` yields an immediate 301 to `/foo/`,
keeping the query string. -/
theorem unslashed_page_redirects_witness :
    normalHandler "/foo" "?q=1"
        ⟨fun _ => Except.error (), none, ⟨none⟩, Except.error (), Except.ok ()⟩ =
      ([], NormalOutcome.redirect ("/foo" ++ "/" ++ "?q=1") 301) :=
  unslashed_page_redirects "/foo" "?q=1" _ (by decide) (by decide) (by decide)

/-- C4: for a page-shaped pathname (ending in `.html` or `/`), whenever
the fragment response the handler inspects — the strategy's response,
or the offline substitution after a thrown fetch — has a non-ok status,
the route handler raises instead of synthesizing content. -/
theorem bad_status_raises (pathname search : String) (env : HandlerEnv)
    (hshape : (jsEndsWith pathname ".html" || jsEndsWith pathname "/") = true)
    (hbad : responseOk (effectiveResponse env pathname).status = false) :
    (normalHandler pathname search env).2 = NormalOutcome.thrown := by
  unfold effectiveResponse effectivePath at hbad
  by_cases hh : jsEndsWith pathname ".html" = true
  · rw [if_pos hh] at hbad
    unfold normalHandler
    rw [if_pos hh]
    unfold handlePage
    cases hsr : env.strategyResult (replaceHtmlSuffix pathname) with
    | ok r => rw [hsr] at hbad; simp only at hbad; simp [hsr, hbad]
    | error e => rw [hsr] at hbad; simp only at hbad; simp [hsr, hbad]
  · have hsl : jsEndsWith pathname "/" = true := by
      rcases Bool.or_eq_true _ _ |>.mp hshape with h | h
      · exact absurd h hh
      · exact h
    rw [if_neg hh] at hbad
    unfold normalHandler
    rw [if_neg hh, if_pos hsl]
    unfold handlePage
    cases hsr : env.strategyResult (replaceHtmlSuffix (pathname ++ "index.html")) with
    | ok r => rw [hsr] at hbad; simp only at hbad; simp [hsr, hbad]
    | error e => rw [hsr] at hbad; simp only at hbad; simp [hsr, hbad]

/-- C4 witness: a 404 fragment response makes the handler raise. -/
theorem bad_status_raises_witness :
    (normalHandler "/missing/" ""
        ⟨fun _ => Except.ok ⟨404, bareFrag⟩, none, ⟨none⟩,
          Except.error (), Except.ok ()⟩).2 = NormalOutcome.thrown :=
  bad_status_raises "/missing/" "" _ (by decide) (by decide)

/-- C5 counterexample: with `rss` omitted and title "Hi", the rendered
feed title is "Hi on web.dev", not the default "web.dev feed", because
`undefined !== '/feed.xml'` takes the custom-title branch. -/
theorem rss_default_title_claim_false :
    ¬(rssTitleFor hiFrag = "web.dev feed") := by
  decide

/-- C5 amended: the feed title is the default "web.dev feed" exactly
when `partial.rss` equals the default feed path; in every other case —
including when `rss` is omitted — it is "`${partial.title}` on web.dev"
(an absent title interpolating as "undefined"). -/
theorem rssTitleFor_spec (p : Partial) :
    (p.rss = some "/feed.xml" → rssTitleFor p = "web.dev feed") ∧
    (p.rss ≠ some "/feed.xml" → rssTitleFor p = jsShow p.title ++ " on web.dev") := by
  constructor <;> intro h <;> simp [rssTitleFor, h]

/-- C5 amended witness: a fragment naming a custom feed gets the custom
title. -/
theorem rssTitleFor_spec_witness :
    rssTitleFor customRssFrag = "Hi on web.dev" :=
  (rssTitleFor_spec customRssFrag).2 (by decide)

/-- C8: the record `updateTemplate` writes to the core cache is the
fetched bundle with its `manifest` field deleted; every record it
persists has `manifest` absent. -/
theorem update_persists_without_manifest (raw : RawBundle) (pre : Except Unit Unit)
    (cache : CoreCache) :
    ( updateTemplate (Except.ok raw) pre cache).1.templateEntry =
        some {raw with manifest := none} ∧
    ∀ b, ( updateTemplate (Except.ok raw) pre cache).1.templateEntry = some b →
      b.manifest = none := by
  have h1 : ( updateTemplate (Except.ok raw) pre cache).1.templateEntry =
      some {raw with manifest := none} := by
    cases pre <;> rfl
  refine ⟨h1, ?_⟩
  intro b hb
  rw [h1] at hb
  cases hb
  rfl

/-- C8 witness: a concrete bundle is persisted with `manifest` gone. -/
theorem update_persists_without_manifest_witness :
    ( updateTemplate (Except.ok sampleBundle) (Except.ok ()) ⟨none⟩).1.templateEntry =
      some {sampleBundle with manifest := none} :=
  (update_persists_without_manifest sampleBundle (Except.ok ()) ⟨none⟩).1

/-- C9: a throw from the fetch or the JSON parse (the `net` argument)
leaves the core-template cache entry unchanged; once both succeed the
write is issued, and it stands even when the later manifest precache
fails (any `pre`). -/
theorem update_write_discipline (pre : Except Unit Unit) (cache : CoreCache) :
    ( updateTemplate (Except.error ()) pre cache).1 = cache ∧
    ∀ raw, ( updateTemplate (Except.ok raw) pre cache).1.templateEntry =
      some {raw with manifest := none} := by
  refine ⟨rfl, ?_⟩
  intro raw
  cases pre <;> rfl

/-- C1: with a cached bundle whose `resourcesVersion` is non-empty, the
resolution serves the cached template unchanged, without refreshing,
exactly when the cached version equals the fragment's version or the
cached `builtAt` is strictly greater than the fragment's `builtAt`;
with an empty cached `resourcesVersion` it always falls through to the
refresh path. -/
theorem cached_template_served_iff (cache : CoreCache) (c : RawBundle) (p : Partial)
    (net : Except Unit RawBundle) (pre : Except Unit Unit)
    (hc : cache.templateEntry = some c) :
    (c.resourcesVersion ≠ "" →
      (( templateForPartial cache p net pre) = (cache, TemplateOutcome.fromCache c.template) ↔
        (p.resourcesVersion = some c.resourcesVersion ∨
          ∃ pb, p.builtAt = some pb ∧ pb < c.builtAt))) ∧
    (c.resourcesVersion = "" →
      ( templateForPartial cache p net pre) = refreshAndServe (some c.template) net pre cache) := by
  constructor
  · intro hrv
    simp only [ templateForPartial, hc]
    rw [if_neg hrv]
    by_cases hcond : p.resourcesVersion = some c.resourcesVersion ∨ jsGtB c.builtAt p.builtAt = true
    · rw [if_pos hcond]
      constructor
      · intro _
        rcases hcond with h | h
        · exact Or.inl h
        · exact Or.inr ((jsGtB_eq_true_iff _ _).mp h)
      · intro _
        rfl
    · rw [if_neg hcond]
      constructor
      · intro habs
        exfalso
        have hu := refreshAndServe_usedCache (some c.template) net pre cache
        rw [habs] at hu
        simp [TemplateOutcome.usedCache] at hu
      · intro hr
        exfalso
        apply hcond
        rcases hr with h | ⟨pb, hpb, hlt⟩
        · exact Or.inl h
        · exact Or.inr ((jsGtB_eq_true_iff _ _).mpr ⟨pb, hpb, hlt⟩)
  · intro hrv
    simp only [ templateForPartial, hc]
    rw [if_pos hrv]

/-- C1 witness: a matching `resourcesVersion` serves the cached
template directly. -/
theorem cached_template_served_iff_witness :
    ( templateForPartial ⟨some {sampleBundle with resourcesVersion := "r1"}⟩
        {bareFrag with resourcesVersion := some "r1"} (Except.error ()) (Except.ok ())) =
      (⟨some {sampleBundle with resourcesVersion := "r1"}⟩, TemplateOutcome.fromCache "T") :=
  ((cached_template_served_iff ⟨some {sampleBundle with resourcesVersion := "r1"}⟩
      {sampleBundle with resourcesVersion := "r1"}
      {bareFrag with resourcesVersion := some "r1"} (Except.error ()) (Except.ok ())
      rfl).1 (by decide)).mpr (Or.inl rfl)

/-- C6 counterexample: with a cached bundle whose template string is
empty, the refresh is decided and fails, yet the resolution does not
return the cached template — JS `if (fallbackTemplate)` treats the
empty string as falsy and re-throws — so the claim's "returns the
previously cached template if one existed" fails here. -/
theorem refresh_failure_empty_template_propagates :
    decidesToRefresh ⟨some {sampleBundle with template := ""}⟩ bareFrag = true ∧
    ( updateTemplate (Except.error ()) (Except.ok ())
        ⟨some {sampleBundle with template := ""}⟩).2 = Except.error () ∧
    ( templateForPartial ⟨some {sampleBundle with template := ""}⟩ bareFrag
        (Except.error ()) (Except.ok ())).2 = TemplateOutcome.failed ∧
    ( templateForPartial ⟨some {sampleBundle with template := ""}⟩ bareFrag
        (Except.error ()) (Except.ok ())).2 ≠ TemplateOutcome.fromFallback "" :=
  ⟨by decide, rfl, rfl, by decide⟩

/-- C6 amended: when the resolution decides to refresh and
`updateTemplate` throws, the previously cached template is returned if
a non-empty one existed; if none existed — or the cached template
string was empty, which the JS truthiness guard treats as absent — the
failure propagates. -/
theorem refresh_failure_falls_back (cache : CoreCache) (p : Partial)
    (net : Except Unit RawBundle) (pre : Except Unit Unit)
    (hdec : decidesToRefresh cache p = true)
    (hfail : ( updateTemplate net pre cache).2 = Except.error ()) :
    ( templateForPartial cache p net pre).2 =
      (match cache.templateEntry with
       | some c =>
         if c.template = "" then TemplateOutcome.failed
         else TemplateOutcome.fromFallback c.template
       | none => TemplateOutcome.failed) := by
  cases hc : cache.templateEntry with
  | none =>
    simp only [ templateForPartial, hc]
    rw [refreshAndServe_of_error none net pre cache hfail]
  | some c =>
    simp only [decidesToRefresh, hc] at hdec
    simp only [ templateForPartial, hc]
    by_cases h1 : c.resourcesVersion = ""
    · rw [if_pos h1]
      rw [show ( refreshAndServe (some c.template) net pre cache).2 =
          (if c.template = "" then TemplateOutcome.failed
           else TemplateOutcome.fromFallback c.template) from
        refreshAndServe_of_error (some c.template) net pre cache hfail]
    · rw [if_neg h1] at hdec ⊢
      by_cases h2 : p.resourcesVersion = some c.resourcesVersion ∨ jsGtB c.builtAt p.builtAt = true
      · rw [if_pos h2] at hdec
        exact absurd hdec (by simp)
      · rw [if_neg h2]
        rw [show ( refreshAndServe (some c.template) net pre cache).2 =
            (if c.template = "" then TemplateOutcome.failed
             else TemplateOutcome.fromFallback c.template) from
          refreshAndServe_of_error (some c.template) net pre cache hfail]

/-- C6 amended witness: a version mismatch plus a failed refresh serves
the non-empty stale cached template. -/
theorem refresh_failure_falls_back_witness :
    ( templateForPartial ⟨some sampleBundle⟩ bareFrag (Except.error ())
        (Except.ok ())).2 = TemplateOutcome.fromFallback "T" :=
  refresh_failure_falls_back ⟨some sampleBundle⟩ bareFrag (Except.error ()) (Except.ok ())
    (by decide) rfl

/-- C10: for a fragment with both `resourcesVersion` and `builtAt`
absent (such as the synthesized dev offline substitute) and a cached
bundle with a non-empty `resourcesVersion`, the resolution never serves
the cached template directly: it always runs the refresh path with the
cached template as the fallback candidate — fresh template on success,
the cached template on failure when it is non-empty (the JS truthiness
guard on the fallback), the propagated failure otherwise. -/
theorem absent_fields_always_refresh (cache : CoreCache) (c : RawBundle) (p : Partial)
    (net : Except Unit RawBundle) (pre : Except Unit Unit)
    (hc : cache.templateEntry = some c) (hrv : c.resourcesVersion ≠ "")
    (hpv : p.resourcesVersion = none) (hpb : p.builtAt = none) :
    ( templateForPartial cache p net pre).2.usedCache = false ∧
    ( templateForPartial cache p net pre) = refreshAndServe (some c.template) net pre cache ∧
    ( templateForPartial cache p net pre).2 =
      (match ( updateTemplate net pre cache).2 with
       | Except.ok t => TemplateOutcome.fromRefresh t
       | Except.error _ =>
         if c.template = "" then TemplateOutcome.failed
         else TemplateOutcome.fromFallback c.template) := by
  have hcond : ¬(p.resourcesVersion = some c.resourcesVersion ∨ jsGtB c.builtAt p.builtAt = true) := by
    rw [hpv, hpb]
    simp [jsGtB]
  have heq : ( templateForPartial cache p net pre) =
      refreshAndServe (some c.template) net pre cache := by
    simp only [ templateForPartial, hc]
    rw [if_neg hrv, if_neg hcond]
  rw [heq]
  exact ⟨refreshAndServe_usedCache _ _ _ _, rfl, refreshAndServe_some _ _ _ _⟩

/-- C10 witness: the dev offline substitute fragment against a
non-empty-version cached bundle goes to the refresh path and falls back
to the cached template when the refresh fails. -/
theorem absent_fields_always_refresh_witness :
    ( templateForPartial ⟨some sampleBundle⟩ devOfflineSub (Except.error ())
        (Except.ok ())).2.usedCache = false :=
  (absent_fields_always_refresh ⟨some sampleBundle⟩ sampleBundle devOfflineSub
    (Except.error ()) (Except.ok ()) rfl (by decide) rfl rfl).1

lemma listLeads_decomp (pat : List Char) :
    ∀ s : List Char, listLeads pat s = true → s = pat ++ s.drop pat.length := by
  induction pat with
  | nil => intro s _; simp
  | cons a as ih =>
    intro s h
    cases s with
    | nil => simp [listLeads] at h
    | cons b bs =>
      simp only [listLeads, Bool.and_eq_true, decide_eq_true_eq] at h
      obtain ⟨hab, htail⟩ := h
      have := ih bs htail
      simp only [List.length_cons, List.drop_succ_cons]
      rw [hab]
      exact congrArg (b :: ·) this

lemma splitOnceL_decomp (pat : List Char) :
    ∀ s x y : List Char, splitOnceL pat s = some (x, y) → s = x ++ pat ++ y := by
  intro s
  induction s with
  | nil =>
    intro x y h
    unfold splitOnceL at h
    by_cases hl : listLeads pat [] = true
    · rw [if_pos hl] at h
      have hp : ([] : List Char) = pat ++ ([] : List Char).drop pat.length :=
        listLeads_decomp pat [] hl
      obtain ⟨hx, hy⟩ := Prod.mk.injEq .. ▸ Option.some.inj h
      subst hx
      subst hy
      simpa using hp
    · rw [if_neg hl] at h
      cases h
  | cons ch rest ih =>
    intro x y h
    unfold splitOnceL at h
    by_cases hl : listLeads pat (ch :: rest) = true
    · rw [if_pos hl] at h
      obtain ⟨hx, hy⟩ := Prod.mk.injEq .. ▸ Option.some.inj h
      subst hx
      subst hy
      simpa using listLeads_decomp pat (ch :: rest) hl
    · rw [if_neg hl] at h
      rcases Option.map_eq_some'.mp h with ⟨⟨x', y'⟩, hsplit, hpair⟩
      obtain ⟨hx, hy⟩ := Prod.mk.injEq .. ▸ hpair
      subst hx
      subst hy
      have := ih x' y' hsplit
      simp only [List.cons_append]
      exact congrArg (ch :: ·) this

lemma occursIn_mem (pat s : List Char) (x : Char) (hx : x ∈ pat)
    (h : occursIn pat s = true) : x ∈ s := by
  unfold occursIn at h
  rcases Option.isSome_iff_exists.mp h with ⟨⟨a, b⟩, hs⟩
  rw [splitOnceL_decomp pat s a b hs]
  simp [List.mem_append, hx]

lemma not_occursIn_of_not_mem (pat s : List Char) (x : Char) (hx : x ∈ pat)
    (hs : x ∉ s) : occursIn pat s = false := by
  cases h : occursIn pat s with
  | false => rfl
  | true => exact absurd (occursIn_mem pat s x hx h) hs

lemma expandRepl_no_dollar (matched before after : List Char) :
    ∀ rep : List Char, '$' ∉ rep → expandRepl matched before after rep = rep := by
  intro rep
  induction rep with
  | nil => intro _; rfl
  | cons ch rest ih =>
    intro h
    have hch : ¬(ch = '$') := by
      rintro rfl
      exact h (List.mem_cons_self _ _)
    unfold expandRepl
    rw [if_neg hch]
    exact congrArg (ch :: ·) (ih (fun hm => h (List.mem_cons_of_mem _ hm)))

/-- The JS replacement-pattern hazard, exhibited on the model: a
replacement string of dollar-ampersand re-inserts the matched marker
itself, so a marker-free replacement string is needed for the
no-marker-remains property. -/
lemma replace_with_dollar_amp_reinserts :
    replaceFirstL contentMarkerL "$&".data contentMarkerL = contentMarkerL := by
  decide

set_option maxRecDepth 8192 in
/-- C7 counterexample: a template carrying the content marker twice
keeps a literal content marker in the hydrated output, because JS
`replace` with a string pattern substitutes only the first occurrence;
so the claim fails for this template and fragment. -/
theorem hydration_marker_can_remain :
    occursIn contentMarkerL
      (hydrateOutput "<!-- %_HEAD_REPLACE_% -->%_CONTENT_REPLACE_%%_CONTENT_REPLACE_%"
        hiFrag).data = true := by
  decide

/-- C7 amended: when the head marker's first occurrence splits the
template as `a ++ headMarker ++ b ++ contentMarker ++ c`, the content
marker's first occurrence in the head-substituted string sits between
`b` and `c`, neither the surrounding fragments nor the substituted
strings contain a `%` character (so no marker can be re-created), and
the substituted strings contain no `$` character (so no JS replacement
pattern such as dollar-ampersand can re-insert a marker), the hydration
performs exactly one substitution per marker — the output is
`a ++ headStr ++ b ++ raw ++ c` — and no marker literal remains. -/
theorem hydration_single_substitution (a b c headStr raw : List Char)
    (h1 : splitOnceL headMarkerL (a ++ headMarkerL ++ b ++ contentMarkerL ++ c) =
      some (a, b ++ contentMarkerL ++ c))
    (h2 : splitOnceL contentMarkerL (a ++ headStr ++ b ++ contentMarkerL ++ c) =
      some (a ++ headStr ++ b, c))
    (ha : '%' ∉ a) (hb : '%' ∉ b) (hc : '%' ∉ c)
    (hh : '%' ∉ headStr) (hr : '%' ∉ raw)
    (hdh : '$' ∉ headStr) (hdr : '$' ∉ raw) :
    hydrateL (a ++ headMarkerL ++ b ++ contentMarkerL ++ c) headStr raw =
      a ++ headStr ++ b ++ raw ++ c ∧
    occursIn headMarkerL (a ++ headStr ++ b ++ raw ++ c) = false ∧
    occursIn contentMarkerL (a ++ headStr ++ b ++ raw ++ c) = false := by
  have hnomem : '%' ∉ a ++ headStr ++ b ++ raw ++ c := by
    simp only [List.mem_append]
    rintro ((((h | h) | h) | h) | h)
    · exact ha h
    · exact hh h
    · exact hb h
    · exact hr h
    · exact hc h
  refine ⟨?_, ?_, ?_⟩
  · have e1 : replaceFirstL headMarkerL headStr (a ++ headMarkerL ++ b ++ contentMarkerL ++ c) =
        a ++ headStr ++ b ++ contentMarkerL ++ c := by
      simp only [replaceFirstL, h1]
      rw [expandRepl_no_dollar _ _ _ headStr hdh]
      simp [List.append_assoc]
    have e2 : replaceFirstL contentMarkerL raw (a ++ headStr ++ b ++ contentMarkerL ++ c) =
        a ++ headStr ++ b ++ raw ++ c := by
      simp only [replaceFirstL, h2]
      rw [expandRepl_no_dollar _ _ _ raw hdr]
    unfold hydrateL
    rw [e1, e2]
  · exact not_occursIn_of_not_mem _ _ '%' (by decide) hnomem
  · exact not_occursIn_of_not_mem _ _ '%' (by decide) hnomem

/-- C7 amended witness: a well-formed small template is hydrated with
exactly one substitution per marker and no marker remains. -/
theorem hydration_single_substitution_witness :
    hydrateL ("<a>".data ++ headMarkerL ++ "<b>".data ++ contentMarkerL ++ "<c>".data)
        "<H>".data "<R>".data =
      "<a>".data ++ "<H>".data ++ "<b>".data ++ "<R>".data ++ "<c>".data ∧
    occursIn headMarkerL
      ("<a>".data ++ "<H>".data ++ "<b>".data ++ "<R>".data ++ "<c>".data) = false ∧
    occursIn contentMarkerL
      ("<a>".data ++ "<H>".data ++ "<b>".data ++ "<R>".data ++ "<c>".data) = false :=
  hydration_single_substitution "<a>".data "<b>".data "<c>".data "<H>".data "<R>".data
    (by decide) (by decide) (by decide) (by decide) (by decide) (by decide) (by decide)
    (by decide) (by decide)
